import Mathlib

/-!
Verification of the database-backed job queue described in the Nitro tasks
skill (`skills/nuxt-nitro-api/nitro-tasks.md`, section "Workaround: Database
Job Queue").  The embedding models the `job_queue` table as a list of rows,
timestamps as rationals (milliseconds since the epoch), and nullable columns
as `Option`.  The ambient effects of the source (`Date.now()`, `Math.random()`,
database-assigned ids) become explicit parameters.
-/

/-- Lifecycle states stored in the `status` column of `job_queue`. -/
inductive JobStatus where
  | pending
  | processing
  | completed
  | failed
deriving DecidableEq

/-- One row of the `job_queue` table.  `payload` is modelled as its
JSON-serialized string (the source stores `JSON.stringify(payload)`). -/
structure JobRow where
  id : Nat
  job_type : String
  payload : String
  status : JobStatus
  attempt_count : Option Nat
  max_attempts : Option Nat
  scheduled_at : Option ℚ
  started_at : Option ℚ
  completed_at : Option ℚ
  error_message : Option String
  created_at : ℚ
deriving DecidableEq

/-- The `job_queue` table, in storage order. -/
abbrev Table := List JobRow

/-- JavaScript `x || d` applied to a nullable integer column, as in
`job.attempt_count || 0` and `job.max_attempts || 3`: both `null` and `0` are
falsy, so a stored `0` also falls back to the default. -/
def jsOr (x : Option Nat) (d : Nat) : Nat :=
  match x with
  | none => d
  | some v => if v = 0 then d else v

/-- Embeds `enqueueJob(jobType, payload)`: inserts one row into `job_queue`
with `job_type`, the serialized `payload`, `status: "pending"` and
`created_at: new Date()`, and returns the database-assigned id (`newId`).
All other columns are left unset (`null`).  The source takes no options
argument. -/
def enqueueJob (t : Table) (now : ℚ) (newId : Nat) (jobType payload : String) :
    Nat × Table :=
  (newId,
   t ++ [{ id := newId, job_type := jobType, payload := payload,
           status := JobStatus.pending, attempt_count := none,
           max_attempts := none, scheduled_at := none, started_at := none,
           completed_at := none, error_message := none, created_at := now }])

/-- The rows the dispatcher's select may return: `where status = 'pending'`,
with `skipLocked()` dropping rows currently locked by concurrent
transactions (`locked` is the set of their ids). -/
def eligibleRows (t : Table) (locked : List Nat) : List JobRow :=
  t.filter (fun r => decide (r.status = JobStatus.pending ∧ r.id ∉ locked))

/-- `orderBy("created_at", "asc")` followed by `limit(1)`: the first row (in
storage order) attaining the minimal `created_at`. -/
def minByCreated : Option JobRow → List JobRow → Option JobRow
  | acc, [] => acc
  | none, r :: rs => minByCreated (some r) rs
  | some b, r :: rs =>
      minByCreated (some (if r.created_at < b.created_at then r else b)) rs

/-- Embeds the claim transaction inside `scheduled:job-dispatcher`: select the
first eligible `pending` row ordered by `created_at` (with `forUpdate` +
`skipLocked`), and if one exists set its `status` to `processing` and
`started_at` to `new Date()`, returning the selected (pre-update) snapshot.
If no row matches, the transaction returns `null` and the table is
untouched. -/
def claimTx (t : Table) (locked : List Nat) (now : ℚ) :
    Option JobRow × Table :=
  match minByCreated none (eligibleRows t locked) with
  | none => (none, t)
  | some job =>
      (some job,
       t.map (fun r =>
         if r.id = job.id then
           { r with status := JobStatus.processing, started_at := some now }
         else r))

/-- Embeds the `run()` body of `scheduled:job-dispatcher` up to its return
value: run the claim transaction; with no job return `"No jobs"`, otherwise
fire-and-forget the work and return the dispatch message. -/
def dispatcherRun (t : Table) (locked : List Nat) (now : ℚ) : String × Table :=
  match claimTx t locked now with
  | (none, t') => ("No jobs", t')
  | (some j, t') => ("Dispatched job " ++ toString j.id, t')

/-- `selectFrom("job_queue") ... where("id", "=", jobId).executeTakeFirst()`. -/
def getById (t : Table) (jobId : Nat) : Option JobRow :=
  t.find? (fun r => decide (r.id = jobId))

/-- The backoff delay computed by `markJobFailed`:
`Math.pow(2, job.attempt_count || 0) * 60000` milliseconds. -/
def backoffDelay (attempts : Nat) : Nat :=
  2 ^ attempts * 60000

/-- Embeds `markJobFailed(jobId, error)`.  It reads the job's
`attempt_count` and `max_attempts`, decides
`shouldRetry = (attempt_count || 0) < (max_attempts || 3)`, and either
reschedules the row (`status: "pending"`,
`scheduled_at: now + delay + jitter`, `error_message`) or marks it
failed (`status: "failed"`, `error_message`).  `rand` is the `Math.random()`
draw (the caller supplies a value in `[0, 1)`); `jitter` is
`rand * 0.1 * delay`.  The result is `none` when no row has the given id
(where the source would throw on `job.attempt_count`).  Note the source
never writes `attempt_count` or `completed_at`. -/
def markJobFailed (t : Table) (jobId : Nat) (errMsg : String) (now rand : ℚ) :
    Option Table :=
  match getById t jobId with
  | none => none
  | some job =>
      if jsOr job.attempt_count 0 < jsOr job.max_attempts 3 then
        let delay : ℚ := (backoffDelay (jsOr job.attempt_count 0) : ℚ)
        let jitter : ℚ := rand * (1 / 10) * delay
        some (t.map (fun r =>
          if r.id = jobId then
            { r with status := JobStatus.pending,
                     scheduled_at := some (now + delay + jitter),
                     error_message := some errMsg }
          else r))
      else
        some (t.map (fun r =>
          if r.id = jobId then
            { r with status := JobStatus.failed,
                     error_message := some errMsg }
          else r))

/-- Whether a row is a stale lease: `status = processing` and
`started_at < now() - leaseTimeout`. -/
def isStale (r : JobRow) (leaseTimeout now : ℚ) : Bool :=
  decide (r.status = JobStatus.processing) &&
    (match r.started_at with
     | some s => decide (s < now - leaseTimeout)
     | none => false)

/-- Modelled from the spec: the Stale-Lease Reaper's `reclaimStale(leaseTimeout)`
has no implementation in the source material (no reaper code exists in the
repository); per the spec it scans for jobs with `status = processing` and
`started_at < now() - leaseTimeout` and resets each such job to
`status = pending` with `scheduled_at = now()`, leaving `attempt_count` and
every other column unchanged. -/
def reclaimStale (t : Table) (leaseTimeout now : ℚ) : Table :=
  t.map (fun r =>
    if isStale r leaseTimeout now then
      { r with status := JobStatus.pending, scheduled_at := some now }
    else r)

/-- `m` consecutive claim transactions, each running on the table state left
by the previous one; the row locks (`forUpdate` + `skipLocked`) serialize
concurrent claim transactions, so concurrent callers are modelled as a
sequence of atomic claims.  Returns the claimed snapshots in order. -/
def claimMany : Nat → Table → ℚ → List JobRow × Table
  | 0, t, _ => ([], t)
  | m + 1, t, now =>
      match claimTx t [] now with
      | (none, t') => ([], t')
      | (some j, t') =>
          let rest := claimMany m t' now
          (j :: rest.1, rest.2)

/-- One dispatch cycle in which the handler fails retryably: the dispatcher
claims the next job, the handler fails, and `markJobFailed` records the
failure.  `none` propagates a lookup failure inside `markJobFailed`. -/
def failCycle (now rand : ℚ) (errMsg : String) (t : Table) : Option Table :=
  match claimTx t [] now with
  | (none, t') => some t'
  | (some j, t') => markJobFailed t' j.id errMsg now rand

/-- A pending job whose `scheduled_at` lies 60 seconds in the future of the
test instant `now = 0`. -/
def futureJob : JobRow :=
  { id := 1, job_type := "x", payload := "p", status := JobStatus.pending,
    attempt_count := none, max_attempts := none, scheduled_at := some 60000,
    started_at := none, completed_at := none, error_message := none,
    created_at := 0 }

/-- A claimed job with `max_attempts = 1` about to experience its first
failure. -/
def procJob : JobRow :=
  { id := 1, job_type := "x", payload := "p", status := JobStatus.processing,
    attempt_count := none, max_attempts := some 1, scheduled_at := none,
    started_at := some 0, completed_at := none, error_message := none,
    created_at := 0 }

/-- A claimed job on its third attempt (`attempt_count = 2`,
`max_attempts = 5`). -/
def retryJob : JobRow :=
  { id := 1, job_type := "x", payload := "p", status := JobStatus.processing,
    attempt_count := some 2, max_attempts := some 5, scheduled_at := none,
    started_at := some 0, completed_at := none, error_message := none,
    created_at := 0 }

/-- A pending job created first (`created_at = 0`) but scheduled later
(`scheduled_at = 100`). -/
def jobA : JobRow :=
  { id := 1, job_type := "x", payload := "p", status := JobStatus.pending,
    attempt_count := none, max_attempts := none, scheduled_at := some 100,
    started_at := none, completed_at := none, error_message := none,
    created_at := 0 }

/-- A pending job created second (`created_at = 1`) but scheduled earliest
(`scheduled_at = 0`). -/
def jobB : JobRow :=
  { id := 2, job_type := "y", payload := "q", status := JobStatus.pending,
    attempt_count := none, max_attempts := none, scheduled_at := some 0,
    started_at := none, completed_at := none, error_message := none,
    created_at := 1 }

/-- A job already in the terminal `completed` state. -/
def termJob : JobRow :=
  { id := 1, job_type := "x", payload := "p", status := JobStatus.completed,
    attempt_count := some 1, max_attempts := some 3, scheduled_at := some 0,
    started_at := some 1, completed_at := some 5, error_message := none,
    created_at := 0 }

/-- A processing job claimed at time 0, stale once
`started_at < now - leaseTimeout`. -/
def staleJob : JobRow :=
  { id := 1, job_type := "x", payload := "p", status := JobStatus.processing,
    attempt_count := some 2, max_attempts := some 3, scheduled_at := some 0,
    started_at := some 0, completed_at := none, error_message := none,
    created_at := 0 }

/-- A failed job, used to build a table with no pending row. -/
def doneJob : JobRow :=
  { id := 7, job_type := "x", payload := "p", status := JobStatus.failed,
    attempt_count := some 3, max_attempts := some 3, scheduled_at := some 0,
    started_at := some 1, completed_at := none,
    error_message := some "boom", created_at := 0 }

/-- A pre-existing row, used as the table contents before an enqueue. -/
def seedJob : JobRow :=
  { id := 3, job_type := "z", payload := "s", status := JobStatus.completed,
    attempt_count := some 1, max_attempts := some 3, scheduled_at := some 0,
    started_at := some 1, completed_at := some 2, error_message := none,
    created_at := 0 }

/-- The state of the job enqueued in claim C1's scenario after one
claim-and-fail cycle at `now = 0` with random draw `0`: still pending,
`attempt_count` untouched, rescheduled 60 s out. -/
def cycledRow : JobRow :=
  { id := 1, job_type := "x", payload := "p", status := JobStatus.pending,
    attempt_count := none, max_attempts := none, scheduled_at := some 60000,
    started_at := some 0, completed_at := none,
    error_message := some "boom", created_at := 0 }

/-! ### Basic characterizations of the selection fold -/

lemma minByCreated_acc_spec (l : List JobRow) :
    ∀ b m, minByCreated (some b) l = some m →
      (m = b ∨ m ∈ l) ∧ m.created_at ≤ b.created_at ∧
        ∀ r ∈ l, m.created_at ≤ r.created_at := by
  induction l with
  | nil =>
      intro b m h
      simp only [minByCreated, Option.some.injEq] at h
      subst h
      simp
  | cons r rs ih =>
      intro b m h
      simp only [minByCreated] at h
      by_cases hlt : r.created_at < b.created_at
      · rw [if_pos hlt] at h
        obtain ⟨hmem, hle, hall⟩ := ih r m h
        refine ⟨?_, le_trans hle (le_of_lt hlt), ?_⟩
        · rcases hmem with h1 | h1
          · right; exact h1 ▸ List.mem_cons_self r rs
          · right; exact List.mem_cons_of_mem _ h1
        · intro x hx
          rcases List.mem_cons.mp hx with h1 | h1
          · exact h1 ▸ hle
          · exact hall x h1
      · rw [if_neg hlt] at h
        obtain ⟨hmem, hle, hall⟩ := ih b m h
        have hbr : b.created_at ≤ r.created_at := not_lt.mp hlt
        refine ⟨?_, hle, ?_⟩
        · rcases hmem with h1 | h1
          · left; exact h1
          · right; exact List.mem_cons_of_mem _ h1
        · intro x hx
          rcases List.mem_cons.mp hx with h1 | h1
          · exact h1 ▸ le_trans hle hbr
          · exact hall x h1

lemma minByCreated_none_spec (l : List JobRow) (m : JobRow)
    (h : minByCreated none l = some m) :
    m ∈ l ∧ ∀ r ∈ l, m.created_at ≤ r.created_at := by
  cases l with
  | nil => simp [minByCreated] at h
  | cons r rs =>
      simp only [minByCreated] at h
      obtain ⟨hmem, hle, hall⟩ := minByCreated_acc_spec rs r m h
      constructor
      · rcases hmem with h1 | h1
        · exact h1 ▸ List.mem_cons_self r rs
        · exact List.mem_cons_of_mem _ h1
      · intro x hx
        rcases List.mem_cons.mp hx with h1 | h1
        · exact h1 ▸ hle
        · exact hall x h1

lemma mem_eligibleRows {t : Table} {locked : List Nat} {r : JobRow} :
    r ∈ eligibleRows t locked ↔
      r ∈ t ∧ r.status = JobStatus.pending ∧ r.id ∉ locked := by
  simp [eligibleRows, List.mem_filter, decide_eq_true_eq, and_assoc]

/-! ### Characterizations of the claim transaction -/

lemma claimTx_eq_of_min_none {t : Table} {locked : List Nat} {now : ℚ}
    (hm : minByCreated none (eligibleRows t locked) = none) :
    claimTx t locked now = (none, t) := by
  unfold claimTx
  rw [hm]

lemma claimTx_eq_of_min_some {t : Table} {locked : List Nat} {now : ℚ}
    {job : JobRow}
    (hm : minByCreated none (eligibleRows t locked) = some job) :
    claimTx t locked now =
      (some job,
       t.map (fun r =>
         if r.id = job.id then
           { r with status := JobStatus.processing, started_at := some now }
         else r)) := by
  unfold claimTx
  rw [hm]

lemma claimTx_some_spec {t : Table} {locked : List Nat} {now : ℚ} {j : JobRow}
    (h : (claimTx t locked now).1 = some j) :
    j ∈ t ∧ j.status = JobStatus.pending ∧ j.id ∉ locked ∧
      (∀ r ∈ t, r.status = JobStatus.pending → r.id ∉ locked →
        j.created_at ≤ r.created_at) ∧
      (claimTx t locked now).2 = t.map (fun r =>
        if r.id = j.id then
          { r with status := JobStatus.processing, started_at := some now }
        else r) := by
  cases hm : minByCreated none (eligibleRows t locked) with
  | none => rw [claimTx_eq_of_min_none hm] at h; simp at h
  | some job =>
      rw [claimTx_eq_of_min_some hm] at h
      simp only [Option.some.injEq] at h
      subst h
      obtain ⟨hmem, hall⟩ := minByCreated_none_spec _ _ hm
      rw [mem_eligibleRows] at hmem
      refine ⟨hmem.1, hmem.2.1, hmem.2.2, ?_, ?_⟩
      · intro r hr hs hl
        exact hall r (mem_eligibleRows.mpr ⟨hr, hs, hl⟩)
      · rw [claimTx_eq_of_min_some hm]

lemma claimTx_none_snd {t : Table} {locked : List Nat} {now : ℚ}
    (h : (claimTx t locked now).1 = none) :
    (claimTx t locked now).2 = t := by
  cases hm : minByCreated none (eligibleRows t locked) with
  | none => rw [claimTx_eq_of_min_none hm]
  | some job => rw [claimTx_eq_of_min_some hm] at h; simp at h

lemma claimTx_none_of_no_pending {t : Table} {locked : List Nat} {now : ℚ}
    (h : ∀ r ∈ t, r.status ≠ JobStatus.pending) :
    claimTx t locked now = (none, t) := by
  have he : eligibleRows t locked = [] := by
    refine List.filter_eq_nil_iff.mpr ?_
    intro r hr
    simp only [decide_eq_true_eq, not_and]
    intro hs
    exact absurd hs (h r hr)
  unfold claimTx
  rw [he]
  rfl

/-! ### Characterizations of the failure handler -/

lemma markJobFailed_retry_eq {t : Table} {jobId : Nat} {e : String}
    {now rand : ℚ} {job : JobRow}
    (hj : getById t jobId = some job)
    (hr : jsOr job.attempt_count 0 < jsOr job.max_attempts 3) :
    markJobFailed t jobId e now rand =
      some (t.map (fun r =>
        if r.id = jobId then
          { r with status := JobStatus.pending,
                   scheduled_at := some
                     (now + (backoffDelay (jsOr job.attempt_count 0) : ℚ) +
                       rand * (1 / 10) *
                         (backoffDelay (jsOr job.attempt_count 0) : ℚ)),
                   error_message := some e }
        else r)) := by
  unfold markJobFailed
  rw [hj]
  simp [hr]

lemma markJobFailed_fail_eq {t : Table} {jobId : Nat} {e : String}
    {now rand : ℚ} {job : JobRow}
    (hj : getById t jobId = some job)
    (hr : ¬ jsOr job.attempt_count 0 < jsOr job.max_attempts 3) :
    markJobFailed t jobId e now rand =
      some (t.map (fun r =>
        if r.id = jobId then
          { r with status := JobStatus.failed, error_message := some e }
        else r)) := by
  unfold markJobFailed
  rw [hj]
  simp [hr]

/-! ### The claimed id stays `processing` through further claims -/

lemma claimTx_marks_processing {t : Table} {locked : List Nat} {now : ℚ}
    {j : JobRow} (hc : (claimTx t locked now).1 = some j) :
    ∀ r ∈ (claimTx t locked now).2, r.id = j.id →
      r.status = JobStatus.processing := by
  rw [(claimTx_some_spec hc).2.2.2.2]
  intro r hr hid
  obtain ⟨s, hs, rfl⟩ := List.mem_map.mp hr
  by_cases h : s.id = j.id
  · simp [h]
  · rw [if_neg h] at hid ⊢
    exact absurd hid h

lemma claimTx_preserves_processing {t : Table} {locked : List Nat} {now : ℚ}
    {x : Nat}
    (h : ∀ r ∈ t, r.id = x → r.status = JobStatus.processing) :
    ∀ r ∈ (claimTx t locked now).2, r.id = x →
      r.status = JobStatus.processing := by
  cases hc : (claimTx t locked now).1 with
  | none => rw [claimTx_none_snd hc]; exact h
  | some j =>
      rw [(claimTx_some_spec hc).2.2.2.2]
      intro r hr hid
      obtain ⟨s, hs, rfl⟩ := List.mem_map.mp hr
      by_cases hsj : s.id = j.id
      · simp [hsj]
      · rw [if_neg hsj] at hid ⊢
        exact h s hs hid

lemma claimMany_not_mem {m : Nat} :
    ∀ (t : Table) (now : ℚ) (x : Nat),
      (∀ r ∈ t, r.id = x → r.status = JobStatus.processing) →
      x ∉ (claimMany m t now).1.map JobRow.id := by
  induction m with
  | zero => intro t now x _ hx; simp [claimMany] at hx
  | succ m ih =>
      intro t now x h hx
      unfold claimMany at hx
      cases hc : claimTx t [] now with
      | mk o t' =>
          rw [hc] at hx
          cases o with
          | none => simp at hx
          | some j =>
              simp only [List.map_cons, List.mem_cons] at hx
              have h1 : (claimTx t [] now).1 = some j := by rw [hc]
              have h2 : (claimTx t [] now).2 = t' := by rw [hc]
              rcases hx with hx | hx
              · have hjp := (claimTx_some_spec h1).2.1
                have := h j (claimTx_some_spec h1).1 hx.symm
                rw [hjp] at this
                exact JobStatus.noConfusion this
              · have hpres := @claimTx_preserves_processing t [] now x h
                rw [h2] at hpres
                exact ih t' now x hpres hx

lemma claimMany_ids_nodup (m : Nat) :
    ∀ (t : Table) (now : ℚ), ((claimMany m t now).1.map JobRow.id).Nodup := by
  induction m with
  | zero => intro t now; simp [claimMany]
  | succ m ih =>
      intro t now
      unfold claimMany
      cases hc : claimTx t [] now with
      | mk o t' =>
          cases o with
          | none => simp
          | some j =>
              simp only [List.map_cons, List.nodup_cons]
              have h1 : (claimTx t [] now).1 = some j := by rw [hc]
              have h2 : (claimTx t [] now).2 = t' := by rw [hc]
              refine ⟨?_, ih t' now⟩
              have hmark := claimTx_marks_processing h1
              rw [h2] at hmark
              exact claimMany_not_mem t' now j.id hmark

/-! ### Claim theorems -/

/-- Claim C1: the spec says a job with `max_attempts = N` whose handler always
fails retryably reaches `status = failed` with `attempt_count = N` after N
dispatch cycles.  Evaluating the code at the failing input (the job of
Scenario A, default `max_attempts`, three claim-and-fail cycles) shows the
job is still `pending` with `attempt_count` never written: `markJobFailed`
never increments `attempt_count`, so the retry guard `0 < 3` holds on every
failure and the terminal branch is unreachable. -/
theorem claim1_three_cycles_leave_job_pending :
    ((failCycle 0 0 "boom" (enqueueJob [] 0 1 "x" "p").2).bind
        (failCycle 0 0 "boom")).bind (failCycle 0 0 "boom") =
      some [cycledRow] ∧
    cycledRow.status = JobStatus.pending ∧
    cycledRow.status ≠ JobStatus.failed ∧
    cycledRow.attempt_count = none ∧
    cycledRow.attempt_count ≠ some 3 := by
  refine ⟨?_, rfl, by decide, rfl, by decide⟩
  norm_num [failCycle, claimTx, eligibleRows, minByCreated, markJobFailed,
    getById, enqueueJob, jsOr, backoffDelay, cycledRow]

/-- Claim C2, counterexample: a claimed job with `max_attempts = 1` suffering
its first failure is rescheduled to `pending` (with backoff) rather than set
to `failed`, and its `attempt_count` is not incremented — refuting the claim
that the first failure of a `max_attempts = 1` job is terminal. -/
theorem claim2_counterexample_max_attempts_one_reschedules :
    markJobFailed [procJob] 1 "boom" 1000 0 =
      some [{ id := 1, job_type := "x", payload := "p",
              status := JobStatus.pending, attempt_count := none,
              max_attempts := some 1, scheduled_at := some 61000,
              started_at := some 0, completed_at := none,
              error_message := some "boom", created_at := 0 }] ∧
    JobStatus.pending ≠ JobStatus.failed ∧
    (none : Option Nat) ≠ some 1 := by
  refine ⟨?_, by decide, by decide⟩
  norm_num [markJobFailed, getById, procJob, jsOr, backoffDelay]

/-- Claim C3: the spec says a job with `scheduled_at` in the future is never
returned by a claim before that time.  Evaluating the code at the failing
input: a pending job scheduled 60 s in the future of `now = 0` is selected
and claimed immediately — the dispatcher's select filters only on
`status = 'pending'` and orders by `created_at`; it never reads
`scheduled_at`. -/
theorem claim3_future_scheduled_job_claimed_immediately :
    futureJob.status = JobStatus.pending ∧
    futureJob.scheduled_at = some 60000 ∧
    (0 : ℚ) < 60000 ∧
    (claimTx [futureJob] [] 0).1 = some futureJob ∧
    (claimTx [futureJob] [] 0).2 =
      [{ id := 1, job_type := "x", payload := "p",
         status := JobStatus.processing, attempt_count := none,
         max_attempts := none, scheduled_at := some 60000,
         started_at := some 0, completed_at := none, error_message := none,
         created_at := 0 }] := by
  refine ⟨rfl, rfl, by norm_num, by decide, by decide⟩

/-- Claim C5, counterexample: the code's backoff delay
`2 ^ attempt_count * 60000` has no cap — no constant `capDelay` makes the
code's delay equal `min(capDelay, 60000 * 2 ^ attempt_count)` at every
attempt count, because the code's delay is unbounded. -/
theorem claim5_counterexample_no_delay_cap :
    ¬ ∃ cap : ℕ, ∀ a : ℕ, backoffDelay a = min cap (60000 * 2 ^ a) := by
  rintro ⟨cap, h⟩
  have h1 : cap < 2 ^ cap := Nat.lt_two_pow cap
  have h2 : (2 : ℕ) ^ cap ≤ 2 ^ (cap + 1) :=
    Nat.pow_le_pow_right (by norm_num) (Nat.le_succ _)
  have h3 := h (cap + 1)
  have h4 : min cap (60000 * 2 ^ (cap + 1)) ≤ cap := Nat.min_le_left _ _
  unfold backoffDelay at h3
  omega

/-- Claim C6, counterexample: `enqueueJob` inserts a row whose
`attempt_count` and `scheduled_at` are `null`, not `0` and
`now() + initialDelay` — the source takes no options argument and writes
only `job_type`, `payload`, `status` and `created_at`. -/
theorem claim6_counterexample_enqueue_leaves_columns_null :
    (enqueueJob [] 0 1 "x" "p").2 =
      [{ id := 1, job_type := "x", payload := "p",
         status := JobStatus.pending, attempt_count := none,
         max_attempts := none, scheduled_at := none, started_at := none,
         completed_at := none, error_message := none, created_at := 0 }] ∧
    (enqueueJob [] 0 1 "x" "p").2.map JobRow.attempt_count = [none] ∧
    (enqueueJob [] 0 1 "x" "p").2.map JobRow.scheduled_at = [none] ∧
    (none : Option Nat) ≠ some 0 := by
  refine ⟨by decide, by decide, by decide, by decide⟩

/-- Claim C7: consecutive atomic claim transactions (the serialization of M
concurrent `claimNext` calls enforced by `forUpdate` + `skipLocked`) return
pairwise-distinct jobs: the list of claimed ids has no duplicate, for any
table, any number of claims and any time. -/
theorem claim7_concurrent_claims_pairwise_distinct (m : Nat) (t : Table)
    (now : ℚ) : ((claimMany m t now).1.map JobRow.id).Nodup :=
  claimMany_ids_nodup m t now

/-- Claim C8, counterexample: `markJobFailed` guards only on
`attempt_count`, never on `status`, so invoked on a `completed` (terminal)
job's id it mutates the row back to `pending` — refuting the claim that no
queue operation ever mutates a terminal row. -/
theorem claim8_counterexample_terminal_row_mutated :
    termJob.status = JobStatus.completed ∧
    markJobFailed [termJob] 1 "late" 10 0 =
      some [{ id := 1, job_type := "x", payload := "p",
              status := JobStatus.pending, attempt_count := some 1,
              max_attempts := some 3, scheduled_at := some 120010,
              started_at := some 1, completed_at := some 5,
              error_message := some "late", created_at := 0 }] ∧
    markJobFailed [termJob] 1 "late" 10 0 ≠ some [termJob] := by
  refine ⟨rfl, ?_, ?_⟩ <;>
    norm_num [markJobFailed, getById, termJob, jsOr, backoffDelay]

/-- Claim C10: when no row has `status = pending`, a dispatch tick's claim
transaction selects nothing, the run reports `"No jobs"`, and the job table
is returned completely unchanged. -/
theorem claim10_no_pending_tick_is_noop (t : Table) (locked : List Nat)
    (now : ℚ) (h : ∀ r ∈ t, r.status ≠ JobStatus.pending) :
    dispatcherRun t locked now = ("No jobs", t) := by
  unfold dispatcherRun
  rw [claimTx_none_of_no_pending h]

/-- Witness for claim C10 at a one-row table holding a failed job. -/
theorem claim10_witness :
    (∀ r ∈ [doneJob], r.status ≠ JobStatus.pending) ∧
    dispatcherRun [doneJob] [] 5 = ("No jobs", [doneJob]) :=
  ⟨by decide, claim10_no_pending_tick_is_noop [doneJob] [] 5 (by decide)⟩


/-- Claim C2 (amended): `markJobFailed` takes no retryable flag and never
writes `attempt_count` or `completed_at`.  For a job found by id it updates
exactly the rows with that id: `error_message` is set to the error, and the
status becomes `pending` (rescheduled) when
`(attempt_count || 0) < (max_attempts || 3)` and `failed` otherwise;
every other row is untouched.  In particular a job with `max_attempts = 1`
and unset `attempt_count` satisfies the retry guard (`0 < 1`) and is
rescheduled, not failed, on its first failure. -/
theorem claim2_amended_markJobFailed_characterization
    (t : Table) (jobId : Nat) (e : String) (now rand : ℚ) (job : JobRow)
    (hj : getById t jobId = some job) :
    ∃ t' : Table, markJobFailed t jobId e now rand = some t' ∧
      ∀ (i : Nat) (r : JobRow), t[i]? = some r →
        ∃ r' : JobRow, t'[i]? = some r' ∧
          r'.attempt_count = r.attempt_count ∧
          r'.completed_at = r.completed_at ∧
          (r.id ≠ jobId → r' = r) ∧
          (r.id = jobId →
            r'.error_message = some e ∧
            (jsOr job.attempt_count 0 < jsOr job.max_attempts 3 →
              r'.status = JobStatus.pending) ∧
            (¬ jsOr job.attempt_count 0 < jsOr job.max_attempts 3 →
              r'.status = JobStatus.failed)) := by
  by_cases hr : jsOr job.attempt_count 0 < jsOr job.max_attempts 3
  · refine ⟨_, markJobFailed_retry_eq hj hr, ?_⟩
    intro i r hir
    rw [List.getElem?_map, hir, Option.map_some']
    by_cases hid : r.id = jobId
    · exact ⟨_, rfl, by simp [hid, hr]⟩
    · exact ⟨_, rfl, by simp [hid]⟩
  · refine ⟨_, markJobFailed_fail_eq hj hr, ?_⟩
    intro i r hir
    rw [List.getElem?_map, hir, Option.map_some']
    by_cases hid : r.id = jobId
    · exact ⟨_, rfl, by simp [hid, hr]⟩
    · exact ⟨_, rfl, by simp [hid]⟩

/-- Witness for claim C2 at the `max_attempts = 1` job of the
counterexample. -/
theorem claim2_amended_witness :
    getById [procJob] 1 = some procJob ∧
    (∃ t' : Table, markJobFailed [procJob] 1 "boom" 1000 0 = some t' ∧
      ∀ (i : Nat) (r : JobRow), [procJob][i]? = some r →
        ∃ r' : JobRow, t'[i]? = some r' ∧
          r'.attempt_count = r.attempt_count ∧
          r'.completed_at = r.completed_at ∧
          (r.id ≠ 1 → r' = r) ∧
          (r.id = 1 →
            r'.error_message = some "boom" ∧
            (jsOr procJob.attempt_count 0 < jsOr procJob.max_attempts 3 →
              r'.status = JobStatus.pending) ∧
            (¬ jsOr procJob.attempt_count 0 < jsOr procJob.max_attempts 3 →
              r'.status = JobStatus.failed))) :=
  ⟨by decide,
   claim2_amended_markJobFailed_characterization [procJob] 1 "boom" 1000 0
     procJob (by decide)⟩

/-- Claim C4, counterexample: with two eligible pending rows (both
`scheduled_at ≤ now = 1000`), the claim transaction returns the row with the
earliest `created_at` (`jobA`, scheduled at 100), not the row with the
earliest `scheduled_at` (`jobB`, scheduled at 0) — the source orders by
`created_at`, and no worker identity is recorded anywhere. -/
theorem claim4_counterexample_orders_by_created_at :
    (claimTx [jobA, jobB] [] 1000).1 = some jobA ∧
    jobB ∈ [jobA, jobB] ∧
    jobB.status = JobStatus.pending ∧
    jobA.scheduled_at = some 100 ∧
    jobB.scheduled_at = some 0 ∧
    (0 : ℚ) < 100 ∧ (100 : ℚ) ≤ 1000 := by
  refine ⟨by decide, by decide, by decide, rfl, rfl, by norm_num, by norm_num⟩

/-- Claim C4 (amended): the claim transaction selects a pending, unlocked row
whose `created_at` is minimal among pending unlocked rows (not minimal
`scheduled_at`; eligibility ignores `scheduled_at` entirely), marks exactly
the rows with the selected id as `processing` with `started_at = now`, and
leaves every other row unchanged; no worker identity is recorded (the row
has no such column). -/
theorem claim4_amended_claim_characterization (t : Table)
    (locked : List Nat) (now : ℚ) (j : JobRow)
    (h : (claimTx t locked now).1 = some j) :
    j ∈ t ∧ j.status = JobStatus.pending ∧ j.id ∉ locked ∧
    (∀ r ∈ t, r.status = JobStatus.pending → r.id ∉ locked →
        j.created_at ≤ r.created_at) ∧
    (∀ (i : Nat) (r : JobRow), t[i]? = some r →
        (r.id = j.id → (claimTx t locked now).2[i]? =
           some { r with status := JobStatus.processing,
                         started_at := some now }) ∧
        (r.id ≠ j.id → (claimTx t locked now).2[i]? = some r)) := by
  obtain ⟨h1, h2, h3, h4, h5⟩ := claimTx_some_spec h
  refine ⟨h1, h2, h3, h4, ?_⟩
  intro i r hir
  rw [h5, List.getElem?_map, hir, Option.map_some']
  constructor <;> intro hid
  · rw [if_pos hid]
  · rw [if_neg hid]

/-- Witness for claim C4 at the two-job table of the counterexample. -/
theorem claim4_amended_witness :
    (claimTx [jobA, jobB] [] 1000).1 = some jobA ∧
    (jobA ∈ [jobA, jobB] ∧ jobA.status = JobStatus.pending ∧
     jobA.id ∉ ([] : List Nat) ∧
     (∀ r ∈ [jobA, jobB], r.status = JobStatus.pending →
        r.id ∉ ([] : List Nat) → jobA.created_at ≤ r.created_at) ∧
     (∀ (i : Nat) (r : JobRow), [jobA, jobB][i]? = some r →
        (r.id = jobA.id → (claimTx [jobA, jobB] [] 1000).2[i]? =
           some { r with status := JobStatus.processing,
                         started_at := some 1000 }) ∧
        (r.id ≠ jobA.id → (claimTx [jobA, jobB] [] 1000).2[i]? = some r))) :=
  ⟨by decide,
   claim4_amended_claim_characterization [jobA, jobB] [] 1000 jobA (by decide)⟩

/-- Claim C5 (amended): on a retryable reschedule the new `scheduled_at`
equals `now + delay + jitter` with `delay = 2 ^ attempt_count * 60000` ms
(no upper cap in the source) and `jitter = rand * 0.1 * delay` for the
random draw `rand ∈ [0, 1)`; the jitter is non-negative and strictly below
10% of the delay, and the delay is non-decreasing in the attempt count. -/
theorem claim5_amended_backoff_formula
    (t : Table) (jobId : Nat) (e : String) (now rand : ℚ) (job : JobRow)
    (hj : getById t jobId = some job)
    (hretry : jsOr job.attempt_count 0 < jsOr job.max_attempts 3)
    (h0 : 0 ≤ rand) (h1 : rand < 1) :
    ∃ t' : Table, markJobFailed t jobId e now rand = some t' ∧
      (∀ r ∈ t', r.id = jobId →
        r.scheduled_at = some
          (now + (backoffDelay (jsOr job.attempt_count 0) : ℚ) +
            rand * (1 / 10) *
              (backoffDelay (jsOr job.attempt_count 0) : ℚ))) ∧
      0 ≤ rand * (1 / 10) * (backoffDelay (jsOr job.attempt_count 0) : ℚ) ∧
      10 * (rand * (1 / 10) * (backoffDelay (jsOr job.attempt_count 0) : ℚ))
        < (backoffDelay (jsOr job.attempt_count 0) : ℚ) ∧
      (∀ a b : ℕ, a ≤ b → backoffDelay a ≤ backoffDelay b) := by
  have hdn : 0 < backoffDelay (jsOr job.attempt_count 0) := by
    unfold backoffDelay
    positivity
  have hd : (0 : ℚ) < (backoffDelay (jsOr job.attempt_count 0) : ℚ) := by
    exact_mod_cast hdn
  refine ⟨_, markJobFailed_retry_eq hj hretry, ?_, ?_, ?_, ?_⟩
  · intro r hr hid
    obtain ⟨s, hs, rfl⟩ := List.mem_map.mp hr
    by_cases h : s.id = jobId
    · simp [h]
    · rw [if_neg h] at hid ⊢
      exact absurd hid h
  · exact mul_nonneg (mul_nonneg h0 (by norm_num)) (le_of_lt hd)
  · nlinarith [hd, h0, h1]
  · intro a b hab
    unfold backoffDelay
    exact Nat.mul_le_mul_right _ (Nat.pow_le_pow_right (by norm_num) hab)

/-- Witness for claim C5 at the `attempt_count = 2` job with random draw
`1/2`. -/
theorem claim5_amended_witness :
    getById [retryJob] 1 = some retryJob ∧
    jsOr retryJob.attempt_count 0 < jsOr retryJob.max_attempts 3 ∧
    (0 : ℚ) ≤ 1 / 2 ∧ (1 : ℚ) / 2 < 1 ∧
    (∃ t' : Table, markJobFailed [retryJob] 1 "boom" 0 (1 / 2) = some t' ∧
      (∀ r ∈ t', r.id = 1 →
        r.scheduled_at = some
          ((0 : ℚ) + (backoffDelay (jsOr retryJob.attempt_count 0) : ℚ) +
            1 / 2 * (1 / 10) *
              (backoffDelay (jsOr retryJob.attempt_count 0) : ℚ))) ∧
      0 ≤ 1 / 2 * (1 / 10) *
            (backoffDelay (jsOr retryJob.attempt_count 0) : ℚ) ∧
      10 * (1 / 2 * (1 / 10) *
            (backoffDelay (jsOr retryJob.attempt_count 0) : ℚ))
        < (backoffDelay (jsOr retryJob.attempt_count 0) : ℚ) ∧
      (∀ a b : ℕ, a ≤ b → backoffDelay a ≤ backoffDelay b)) :=
  ⟨by decide, by decide, by norm_num, by norm_num,
   claim5_amended_backoff_formula [retryJob] 1 "boom" 0 (1 / 2) retryJob
     (by decide) (by decide) (by norm_num) (by norm_num)⟩

/-- Claim C6 (amended): `enqueueJob(jobType, payload)` takes no options;
it appends exactly one new row with `status = pending`,
`created_at = now()`, the serialized payload, and every other column
(`attempt_count`, `max_attempts`, `scheduled_at`, `started_at`,
`completed_at`, `error_message`) left `null`, leaving all pre-existing rows
unchanged and returning the new row's id. -/
theorem claim6_amended_enqueue_row (t : Table) (now : ℚ) (newId : Nat)
    (jobType payload : String) :
    (enqueueJob t now newId jobType payload).1 = newId ∧
    (enqueueJob t now newId jobType payload).2.length = t.length + 1 ∧
    (∀ i : Nat, i < t.length →
      (enqueueJob t now newId jobType payload).2[i]? = t[i]?) ∧
    (enqueueJob t now newId jobType payload).2[t.length]? =
      some { id := newId, job_type := jobType, payload := payload,
             status := JobStatus.pending, attempt_count := none,
             max_attempts := none, scheduled_at := none, started_at := none,
             completed_at := none, error_message := none,
             created_at := now } := by
  refine ⟨rfl, by simp [enqueueJob], ?_, ?_⟩
  · intro i hi
    exact List.getElem?_append_left hi
  · exact List.getElem?_concat_length _ _

/-- Witness for claim C6: enqueueing on a one-row table. -/
theorem claim6_amended_witness :
    (enqueueJob [seedJob] 7 4 "x" "p").1 = 4 ∧
    (enqueueJob [seedJob] 7 4 "x" "p").2.length = [seedJob].length + 1 ∧
    (∀ i : Nat, i < [seedJob].length →
      (enqueueJob [seedJob] 7 4 "x" "p").2[i]? = [seedJob][i]?) ∧
    (enqueueJob [seedJob] 7 4 "x" "p").2[[seedJob].length]? =
      some { id := 4, job_type := "x", payload := "p",
             status := JobStatus.pending, attempt_count := none,
             max_attempts := none, scheduled_at := none, started_at := none,
             completed_at := none, error_message := none,
             created_at := 7 } :=
  claim6_amended_enqueue_row [seedJob] 7 4 "x" "p"

/-- Claim C9: the spec-modelled reaper `reclaimStale(leaseTimeout)` resets
every stale row (`status = processing` with
`started_at < now - leaseTimeout`) to `status = pending` with
`scheduled_at = now`, leaving `attempt_count` and every other column of that
row unchanged, and leaves every non-stale row entirely unchanged. -/
theorem claim9_reaper_resets_only_stale_rows (t : Table)
    (leaseTimeout now : ℚ) (i : Nat) (r : JobRow) (h : t[i]? = some r) :
    (reclaimStale t leaseTimeout now).length = t.length ∧
    (isStale r leaseTimeout now = true →
      (reclaimStale t leaseTimeout now)[i]? =
        some { r with status := JobStatus.pending,
                      scheduled_at := some now }) ∧
    (isStale r leaseTimeout now = false →
      (reclaimStale t leaseTimeout now)[i]? = some r) := by
  refine ⟨by simp [reclaimStale], ?_, ?_⟩ <;> intro hb <;>
    · unfold reclaimStale
      rw [List.getElem?_map, h, Option.map_some']
      simp [hb]

/-- Witness for claim C9 at a stale processing job
(`started_at = 0 < now - leaseTimeout = 10000`). -/
theorem claim9_witness :
    [staleJob][0]? = some staleJob ∧
    ((reclaimStale [staleJob] 30000 40000).length = [staleJob].length ∧
     (isStale staleJob 30000 40000 = true →
       (reclaimStale [staleJob] 30000 40000)[0]? =
         some { staleJob with status := JobStatus.pending,
                              scheduled_at := some 40000 }) ∧
     (isStale staleJob 30000 40000 = false →
       (reclaimStale [staleJob] 30000 40000)[0]? = some staleJob)) :=
  ⟨by decide,
   claim9_reaper_resets_only_stale_rows [staleJob] 30000 40000 0 staleJob
     (by decide)⟩

/-- Claim C8 (amended): terminal rows (`completed` or `failed`) are never
mutated by the claim transaction (its select filters on `status = pending`)
nor by the reaper (which only touches `processing` rows); but
`markJobFailed` guards only on `attempt_count`, not on `status`, so the
dispatch discipline must avoid invoking it on a terminal job's id — invoked
on one, it mutates the row (see the counterexample). -/
theorem claim8_amended_terminal_rows_preserved (t : Table)
    (locked : List Nat) (now leaseTimeout now2 : ℚ) (i : Nat) (r : JobRow)
    (hids : (t.map JobRow.id).Nodup)
    (h : t[i]? = some r)
    (hterm : r.status = JobStatus.completed ∨ r.status = JobStatus.failed) :
    (claimTx t locked now).2[i]? = some r ∧
    (reclaimStale t leaseTimeout now2)[i]? = some r := by
  constructor
  · cases hc : (claimTx t locked now).1 with
    | none => rw [claimTx_none_snd hc, h]
    | some j =>
        obtain ⟨hjmem, hjp, -, -, hsnd⟩ := claimTx_some_spec hc
        rw [hsnd, List.getElem?_map, h, Option.map_some']
        have hrmem : r ∈ t := List.getElem?_mem h
        have hne : r.id ≠ j.id := by
          intro hid
          have : r = j := List.inj_on_of_nodup_map hids hrmem hjmem hid
          rcases hterm with ht | ht <;> rw [this, hjp] at ht <;>
            exact JobStatus.noConfusion ht
        rw [if_neg hne]
  · unfold reclaimStale
    rw [List.getElem?_map, h, Option.map_some']
    rcases hterm with ht | ht <;> simp [isStale, ht]

/-- Witness for claim C8 at a one-row table holding a completed job. -/
theorem claim8_amended_witness :
    ([termJob].map JobRow.id).Nodup ∧
    [termJob][0]? = some termJob ∧
    (termJob.status = JobStatus.completed ∨
      termJob.status = JobStatus.failed) ∧
    ((claimTx [termJob] [] 0).2[0]? = some termJob ∧
     (reclaimStale [termJob] 30000 40000)[0]? = some termJob) :=
  ⟨by decide, by decide, Or.inl rfl,
   claim8_amended_terminal_rows_preserved [termJob] [] 0 30000 40000 0 termJob
     (by decide) (by decide) (Or.inl rfl)⟩
